import Mathlib

/-!
Shallow embedding of the flash-arbitrage system: the ledger-side
`FlashArbitrage` contract, the Uniswap V2 opportunity scanner, the
circuit breaker, the slippage calculator, and the bot's submission
dispatch.  Addresses and tokens are modelled as `Nat` (0 is the zero
address), EVM words as `Nat` (all quantities involved are unsigned and
no overflow-relevant arithmetic appears in the verified paths), and
JavaScript `BigInt` as `Nat` (all values in the verified paths are
non-negative; `BigInt` division truncates toward zero, which on
non-negative values is `Nat` division).
-/

namespace Scanner

/-- Embeds `UniswapScanner.calculateAmountOut` (lib/uniswap-scanner, hop
output under the 0.3% fee): `amountInWithFee = amountIn * 997n`,
`numerator = amountInWithFee * reserveOut`,
`denominator = reserveIn * 1000n + amountInWithFee`, result
`numerator / denominator`. -/
def calculateAmountOut (amountIn reserveIn reserveOut : Nat) : Nat :=
  let amountInWithFee := amountIn * 997
  let numerator := amountInWithFee * reserveOut
  let denominator := reserveIn * 1000 + amountInWithFee
  numerator / denominator

/-- Reserve snapshot returned by `getReserves` for one pair contract. -/
structure Reserves where
  reserve0 : Nat
  reserve1 : Nat
  token0 : Nat
  token1 : Nat
deriving Repr, DecidableEq

/-- The object literal `findArbitrage` returns (the fields the claims
are about; `timestamp` is wall-clock noise and is not modelled). -/
structure Opportunity where
  profitable : Bool
  profit : Nat
  amountIn : Nat
  amountOut : Nat
  path : List Nat
  pathReverse : List Nat
  pair1 : Nat
  pair2 : Nat
deriving Repr, DecidableEq

/-- Pure core of `UniswapScanner.findArbitrage` once both `getReserves`
calls have answered: reserve orientation by token identity, the two
chained `calculateAmountOut` hops, and
`profit = amountOut2 > amountIn ? amountOut2 - amountIn : 0n`,
`profitable = profit > 0n`. -/
def findArbitrageCore (reserves1 reserves2 : Reserves) (tokenIn amountIn pair1Address pair2Address : Nat) :
    Opportunity :=
  let isToken01 := reserves1.token0 = tokenIn
  let reserveIn1 := if isToken01 then reserves1.reserve0 else reserves1.reserve1
  let reserveOut1 := if isToken01 then reserves1.reserve1 else reserves1.reserve0
  let tokenOut := if isToken01 then reserves1.token1 else reserves1.token0
  let isToken02 := reserves2.token0 = tokenOut
  let reserveIn2 := if isToken02 then reserves2.reserve0 else reserves2.reserve1
  let reserveOut2 := if isToken02 then reserves2.reserve1 else reserves2.reserve0
  let amountOut1 := calculateAmountOut amountIn reserveIn1 reserveOut1
  let amountOut2 := calculateAmountOut amountOut1 reserveIn2 reserveOut2
  let profit := if amountIn < amountOut2 then amountOut2 - amountIn else 0
  { profitable := decide (0 < profit)
    profit := profit
    amountIn := amountIn
    amountOut := amountOut2
    path := [tokenIn, tokenOut]
    pathReverse := [tokenOut, tokenIn]
    pair1 := pair1Address
    pair2 := pair2Address }

/-- Read-only environment of the scanner: `getReserves pairAddress`
either answers with a snapshot or fails (network/contract error). -/
structure ScanEnv where
  getReserves : Nat → Option Reserves

/-- Embeds `UniswapScanner.findArbitrage`: fetch both reserve
snapshots, run the pure core; the surrounding `try`/`catch` turns any
failure into `{ profitable: false, profit: 0n }` (the other fields are
`undefined` in the source; they are zeroed here, and the scan drops
this record anyway because it is not profitable). -/
def findArbitrage (env : ScanEnv) (pair1Address pair2Address tokenIn amountIn : Nat) : Opportunity :=
  match env.getReserves pair1Address, env.getReserves pair2Address with
  | some r1, some r2 => findArbitrageCore r1 r2 tokenIn amountIn pair1Address pair2Address
  | _, _ =>
      { profitable := false, profit := 0, amountIn := 0, amountOut := 0
        path := [], pathReverse := [], pair1 := 0, pair2 := 0 }

/-- One entry of the scanner's `this.pairs` table.  `key` holds the
components of the map key already split at every dash (the source key
is a single dash-joined string such as "WETH-USDC-uni"). -/
structure PairEntry where
  key : List String
  pair : Nat
  dex : String
  token0 : String
  token1 : String
deriving Repr, DecidableEq

/-- One element of the list `scanAll` returns: the spread of the
`findArbitrage` result plus the venue identities. -/
structure ScanHit where
  opp : Opportunity
  dex1 : String
  dex2 : String
  pairName : List String
deriving Repr, DecidableEq

/-- The token-pair identity of a map key:
`pairKeys[i].split('-').slice(0, 2).sort()` followed by `.join('')`. -/
def charListLe : List Char → List Char → Bool
  | [], _ => true
  | _ :: _, [] => false
  | a :: as, b :: bs =>
      if a.toNat < b.toNat then true
      else if b.toNat < a.toNat then false
      else charListLe as bs

/-- Lexicographic string order by code point — what the engine's
default `Array.prototype.sort` comparison amounts to on the ASCII
token names involved. -/
def strLe (a b : String) : Bool :=
  charListLe a.data b.data

def tokenIdOfKey (key : List String) : String :=
  ((key.take 2).insertionSort (fun a b => strLe a b = true)).foldl (fun a b => a ++ b) ""

/-- The ordered index pairs `i < j` of the double loop in `scanAll`,
in the order the loop visits them. -/
def orderedPairs {α : Type} : List α → List (α × α)
  | [] => []
  | x :: xs => xs.map (fun y => (x, y)) ++ orderedPairs xs

/-- The comparator `(a, b) => (b.profit > a.profit ? 1 : -1)` keeps `a`
before `b` exactly when it answers something ≤ 0, i.e. when
`b.profit ≤ a.profit`. -/
def profitDescending (a b : ScanHit) : Prop :=
  b.opp.profit ≤ a.opp.profit

instance : DecidableRel profitDescending := fun a b =>
  Nat.decLe b.opp.profit a.opp.profit

/-- Embeds `UniswapScanner.scanAll`: the `i < j` double loop over the
pair table, the same-token-pair / different-dex guard, the
`result.profitable` filter, and the final
`opportunities.sort((a, b) => (b.profit > a.profit ? 1 : -1))`.  The
engine's comparison sort keeps `a` before `b` exactly when the
comparator answers ≤ 0, i.e. sorts by `profitDescending`; it is
modelled by an insertion sort on that relation (which order ties land
in is not pinned by the comparator, whose tie answer -1 is
order-inconsistent, and no claim depends on it). -/
def scanAll (env : ScanEnv) (pairs : List PairEntry) (tokenIn amountIn : Nat) : List ScanHit :=
  let opportunities := (orderedPairs pairs).filterMap (fun pq =>
    let p1 := pq.1
    let p2 := pq.2
    if tokenIdOfKey p1.key = tokenIdOfKey p2.key ∧ p1.dex ≠ p2.dex then
      let result := findArbitrage env p1.pair p2.pair tokenIn amountIn
      if result.profitable then
        some { opp := result, dex1 := p1.dex, dex2 := p2.dex, pairName := p1.key }
      else none
    else none)
  opportunities.insertionSort profitDescending

end Scanner

namespace Breaker

/-- The three values `this.state` takes in `CircuitBreaker`. -/
inductive BState where
  | CLOSED
  | OPEN
  | HALF_OPEN
deriving Repr, DecidableEq

/-- State of a `CircuitBreaker` instance.  `lastFailureTime` starts as
`null`, modelled by `none`; times are epoch milliseconds. -/
structure CircuitBreaker where
  maxFailures : Nat
  resetTimeout : Nat
  minProfitThreshold : Nat
  failures : Nat
  totalProfit : Int
  state : BState
  lastFailureTime : Option Nat
deriving Repr, DecidableEq

/-- Embeds the `CircuitBreaker` constructor.  `options.maxFailures || 5`
falls back to the default on every falsy value, which for a `Nat`
option means on 0; likewise `resetTimeout || 60000` and
`minProfitThreshold || 0`. -/
def mkBreaker (maxFailuresOpt resetTimeoutOpt minProfitThresholdOpt : Nat) : CircuitBreaker :=
  { maxFailures := if maxFailuresOpt = 0 then 5 else maxFailuresOpt
    resetTimeout := if resetTimeoutOpt = 0 then 60000 else resetTimeoutOpt
    minProfitThreshold := if minProfitThresholdOpt = 0 then 0 else minProfitThresholdOpt
    failures := 0
    totalProfit := 0
    state := BState.CLOSED
    lastFailureTime := none }

/-- Embeds `CircuitBreaker.recordSuccess`. -/
def recordSuccess (cb : CircuitBreaker) (profit : Int) : CircuitBreaker :=
  { cb with totalProfit := cb.totalProfit + profit, failures := 0, state := BState.CLOSED }

/-- Embeds `CircuitBreaker.recordFailure` at wall-clock time `now`:
increment `failures`, stamp `lastFailureTime`, and open the breaker
(returning `true`, the stop signal) when `failures >= maxFailures`. -/
def recordFailure (cb : CircuitBreaker) (now : Nat) : CircuitBreaker × Bool :=
  let cb1 := { cb with failures := cb.failures + 1, lastFailureTime := some now }
  if cb1.maxFailures ≤ cb1.failures then
    ({ cb1 with state := BState.OPEN }, true)
  else
    (cb1, false)

/-- Embeds `CircuitBreaker.shouldAllowRequest` at wall-clock time
`now`.  `CLOSED` always allows; `OPEN` allows (and moves to
`HALF_OPEN`, resetting `failures`) only once strictly more than
`resetTimeout` has elapsed since the last failure; `HALF_OPEN` always
allows.  `Date.now() - this.lastFailureTime` on a `null` stamp is
modelled with `getD 0` (the `OPEN` state always has a stamp). -/
def shouldAllowRequest (cb : CircuitBreaker) (now : Nat) : CircuitBreaker × Bool :=
  match cb.state with
  | BState.CLOSED => (cb, true)
  | BState.OPEN =>
      if cb.resetTimeout < now - cb.lastFailureTime.getD 0 then
        ({ cb with state := BState.HALF_OPEN, failures := 0 }, true)
      else
        (cb, false)
  | BState.HALF_OPEN => (cb, true)

/-- A sequence of consecutive `recordFailure` calls at the given
times. -/
def recordFailures (cb : CircuitBreaker) : List Nat → CircuitBreaker
  | [] => cb
  | t :: ts => recordFailures (recordFailure cb t).1 ts

end Breaker

namespace Slippage

/-- Fields of the opportunity object that `SlippageCalculator` reads
(`reserve0A || reserves0A` etc.; only one spelling is modelled) plus
the `profit` field forwarded as `expectedProfit`. -/
structure SlOpportunity where
  reserve0A : Nat
  reserve1A : Nat
  reserve0B : Nat
  reserve1B : Nat
  profit : Nat
deriving Repr, DecidableEq

/-- Embeds `SlippageCalculator.calculateMinAmountOut`:
constant-product expected output with fee in basis points, then the
multiplicative downward slippage tolerance.  `slippageBasisPoints` is
the calculator's only instance state. -/
def calculateMinAmountOut (slippageBasisPoints amountIn reserve0 reserve1 : Nat)
    (token0In : Bool) (feeBasisPoints : Nat) : Nat :=
  let feeMultiplier := 10000 - feeBasisPoints
  let reserveIn := if token0In then reserve0 else reserve1
  let reserveOut := if token0In then reserve1 else reserve0
  let amountInWithFee := amountIn * feeMultiplier
  let numerator := amountInWithFee * reserveOut
  let denominator := reserveIn * 10000 + amountInWithFee
  let expectedOut := numerator / denominator
  let slippageMultiplier := 10000 - slippageBasisPoints
  expectedOut * slippageMultiplier / 10000

/-- Embeds `SlippageCalculator.calculateArbitrageSlippage`: hop 1 with
`token0In = true`, hop 2 fed by hop 1's bound with `token0In = false`,
both at the 0.3% (30 bp) DEX fee; answers
`(minAmountOut1, minAmountOut2, expectedProfit)`. -/
def calculateArbitrageSlippage (slippageBasisPoints : Nat) (opportunity : SlOpportunity)
    (flashLoanAmount : Nat) : Nat × Nat × Nat :=
  let minAmountOut1 :=
    calculateMinAmountOut slippageBasisPoints flashLoanAmount
      opportunity.reserve0A opportunity.reserve1A true 30
  let minAmountOut2 :=
    calculateMinAmountOut slippageBasisPoints minAmountOut1
      opportunity.reserve0B opportunity.reserve1B false 30
  (minAmountOut1, minAmountOut2, opportunity.profit)

/-- Embeds `SlippageCalculator.isProfitableWithSlippage`:
`premium = amountBorrowed * 5n / 10000n` (the 0.05% Aave premium),
`amountOwed = amountBorrowed + premium`, answer
`minOutput > amountOwed`. -/
def isProfitableWithSlippage (flashLoanAmount minAmountOut2 : Nat) : Bool :=
  let premium := flashLoanAmount * 5 / 10000
  let amountOwed := flashLoanAmount + premium
  decide (amountOwed < minAmountOut2)

/-- The record `getProtectedParameters` returns (`slippagePercent` is
presentation only and not modelled). -/
structure ProtectedParams where
  minAmountOut1 : Nat
  minAmountOut2 : Nat
  expectedProfit : Nat
  isProfitable : Bool
  flashLoanAmount : Nat
deriving Repr, DecidableEq

/-- Embeds `SlippageCalculator.getProtectedParameters`: derive the two
hop bounds from the opportunity's reserve snapshot, then gate on
`isProfitableWithSlippage(flashLoanAmount, minAmountOut2)`. -/
def getProtectedParameters (slippageBasisPoints : Nat) (opportunity : SlOpportunity)
    (flashLoanAmount : Nat) : ProtectedParams :=
  let r := calculateArbitrageSlippage slippageBasisPoints opportunity flashLoanAmount
  { minAmountOut1 := r.1
    minAmountOut2 := r.2.1
    expectedProfit := r.2.2
    isProfitable := isProfitableWithSlippage flashLoanAmount r.2.1
    flashLoanAmount := flashLoanAmount }

end Slippage

namespace Contract

/-- Ghost record of one `swapExactTokensForTokens` request the contract
makes to a router.  `hop` tags the source call site (1 = the hop-1
call through `router1`, 2 = the hop-2 fallback loop); it is
bookkeeping for the proofs, not contract data. -/
structure SwapCall where
  router : Nat
  amountIn : Nat
  amountOutMin : Nat
  path : List Nat
  deadline : Nat
  hop : Nat
deriving Repr, DecidableEq

/-- The events the verified paths emit. -/
inductive Event where
  | FlashLoanExecuted (asset amount profit premium : Nat)
  | FlashLoanCalled (receiver asset amount : Nat)
deriving Repr, DecidableEq

/-- Ledger state visible to the `FlashArbitrage` contract: its storage
(`owner`, `aavePool`, `router1`, `router2`, `paused`, the
`ReentrancyGuard` status `locked`, `inFlashLoan`, `totalProfits`), the
contract's token balances, the allowances it has granted
(token → spender → value), the emitted event log, and the ghost log of
router swap requests. -/
structure ChainState where
  self : Nat
  owner : Nat
  aavePool : Nat
  router1 : Nat
  router2 : Nat
  paused : Bool
  locked : Bool
  inFlashLoan : Bool
  totalProfits : Nat
  balances : Nat → Nat
  allowance : Nat → Nat → Nat
  events : List Event
  calls : List SwapCall

/-- External world: a router swap request either reverts (`none`, in
which case the EVM undoes every state change of that sub-call) or
answers with the `amounts` array and the state it leaves behind.
`blockTimestamp` is the (constant within one unit) `block.timestamp`. -/
structure Env where
  swap : SwapCall → ChainState → Option (List Nat × ChainState)
  blockTimestamp : Nat

/-- `IERC20(token).approve(spender, value)` issued by the contract:
sets (does not add to) the allowance. -/
def approve (st : ChainState) (token spender value : Nat) : ChainState :=
  { st with allowance := fun t s =>
      if t = token ∧ s = spender then value else st.allowance t s }

/-- Appends a request to the ghost call log. -/
def logCall (st : ChainState) (c : SwapCall) : ChainState :=
  { st with calls := st.calls ++ [c] }

/-- The hop-2 fallback loop of `FlashArbitrage._executeSwaps`:
`for (i = 0; i < routers.length; i++) { try swap } ` — the first
candidate whose call does not revert ends the loop (`break`) with
`amountReceived = amounts[amounts.length - 1]`, a reverting candidate
is skipped (`catch { continue }`, its state effects undone), and an
exhausted list leaves `amountReceived = 0`.  Reading the last element
of an empty `amounts` array is the arithmetic-underflow panic. -/
def tryRouters (env : Env) (st : ChainState) (routers : List Nat)
    (amountIn amountOutMin : Nat) (path : List Nat) (deadline : Nat) :
    Except String (Nat × ChainState) :=
  match routers with
  | [] => Except.ok (0, st)
  | r :: rest =>
      let c : SwapCall :=
        { router := r, amountIn := amountIn, amountOutMin := amountOutMin
          path := path, deadline := deadline, hop := 2 }
      match env.swap c (logCall st c) with
      | some (amounts, st2) =>
          match amounts.getLast? with
          | some v => Except.ok (v, st2)
          | none => Except.error "Panic(0x11)"
      | none => tryRouters env (logCall st c) rest amountIn amountOutMin path deadline

/-- Embeds `FlashArbitrage._executeSwaps`: approve and swap `amount` on
`router1` with `minAmountOut1 = 0` (reverts of this un-caught call
abort the unit), approve the intermediate token to `router2`, then the
hop-2 fallback loop over `[router2, router1]` with
`minAmountOut = (amount * 101) / 100`, followed by
`require(amountReceived > 0, "All swap attempts failed")` and
`require(amountReceived >= amount + ((amount * 50) / 10000),
"Arbitrage not profitable")`. -/
def executeSwaps (env : Env) (st : ChainState) (asset amount : Nat)
    (path1 path2 : List Nat) : Except String (Nat × ChainState) :=
  let st1 := approve st asset st.router1 amount
  let c1 : SwapCall :=
    { router := st.router1, amountIn := amount, amountOutMin := 0
      path := path1, deadline := env.blockTimestamp + 300, hop := 1 }
  match env.swap c1 (logCall st1 c1) with
  | none => Except.error "hop-1 swap reverted"
  | some (amounts1, st2) =>
      match path1.getLast?, amounts1.getLast? with
      | some intermediateToken, some intermediateAmount =>
          let st3 := approve st2 intermediateToken st2.router2 intermediateAmount
          let minAmountOut := amount * 101 / 100
          let routers := [st2.router2, st2.router1]
          match tryRouters env st3 routers intermediateAmount minAmountOut path2
              (env.blockTimestamp + 300) with
          | Except.error e => Except.error e
          | Except.ok (amountReceived, st4) =>
              if 0 < amountReceived then
                if amount + amount * 50 / 10000 ≤ amountReceived then
                  Except.ok (amountReceived, st4)
                else Except.error "Arbitrage not profitable"
              else Except.error "All swap attempts failed"
      | _, _ => Except.error "Panic(0x11)"

/-- Embeds `FlashArbitrage.executeOperation`, the Aave V3 flash-loan
callback: the three spoof/reentry guards
(`msg.sender == address(aavePool)`, `initiator == address(this)`,
`inFlashLoan`), the two swaps, `amountOwed = amount + premium`,
`require(finalAmount > amountOwed)`,
`profit = finalAmount - amountOwed`,
`require(profit >= minProfit)`, the repayment approval of exactly
`amountOwed` to the pool, `totalProfits += profit`, and the
`FlashLoanExecuted` event.  `params` is already decoded into
`(path1, path2, minProfit)` (`abi.decode` of the tuple encoded by
`flashArbitrage`). -/
def executeOperation (env : Env) (st : ChainState)
    (msgSender asset amount premium initiator : Nat)
    (path1 path2 : List Nat) (minProfit : Nat) :
    Except String (Bool × ChainState) :=
  if msgSender = st.aavePool then
    if initiator = st.self then
      if st.inFlashLoan then
        match executeSwaps env st asset amount path1 path2 with
        | Except.error e => Except.error e
        | Except.ok (finalAmount, st1) =>
            let amountOwed := amount + premium
            if amountOwed < finalAmount then
              let profit := finalAmount - amountOwed
              if minProfit ≤ profit then
                let st2 := approve st1 asset st1.aavePool amountOwed
                let st3 :=
                  { st2 with
                    totalProfits := st2.totalProfits + profit
                    events := st2.events ++ [Event.FlashLoanExecuted asset amount profit premium] }
                Except.ok (true, st3)
              else Except.error "Profit below minimum threshold"
            else Except.error "Arbitrage not profitable"
      else Except.error "Not in flash loan"
    else Except.error "Initiator must be this contract"
  else Except.error "Caller must be Aave Pool"

/-- The in-repo lender (`MockAavePool.flashLoanSimple`): emits
`FlashLoanCalled`, computes `premium = (amount * 5) / 10000`, invokes
the receiver's `executeOperation` with `initiator = msg.sender` (the
calling contract) and itself as the callback's `msg.sender`, and
requires the callback not to revert
(`require(success, "Flash loan callback failed")`). -/
def flashLoanSimple (env : Env) (st : ChainState) (asset amount : Nat)
    (path1 path2 : List Nat) (minProfit : Nat) : Except String ChainState :=
  let st1 := { st with events := st.events ++ [Event.FlashLoanCalled st.self asset amount] }
  let premium := amount * 5 / 10000
  match executeOperation env st1 st.aavePool asset amount premium st.self path1 path2 minProfit with
  | Except.error _ => Except.error "Flash loan callback failed"
  | Except.ok (_, st2) => Except.ok st2

/-- Embeds `FlashArbitrage.flashArbitrage`: the `onlyOwner`,
`nonReentrant` and `whenNotPaused` modifiers, the four configuration /
path `require`s, setting `inFlashLoan`, the `flashLoanSimple` call on
the lender, and clearing `inFlashLoan` (and the reentrancy lock) on
the way out.  (The paused check textually runs with the lock already
taken; since a failed check reverts the lock too, checking it before
taking the lock is observationally the same.) -/
def flashArbitrage (env : Env) (st : ChainState) (msgSender asset amount : Nat)
    (path1 path2 : List Nat) (minProfit : Nat) : Except String ChainState :=
  if msgSender ≠ st.owner then Except.error "Ownable: caller is not the owner"
  else if st.locked then Except.error "ReentrancyGuard: reentrant call"
  else if st.paused then Except.error "Pausable: paused"
  else if st.aavePool = 0 then Except.error "Aave Pool not configured"
  else if st.router1 = 0 ∨ st.router2 = 0 then Except.error "Routers not configured"
  else if ¬ (2 ≤ path1.length ∧ 2 ≤ path2.length) then Except.error "Invalid paths"
  else if ¬ (path1.headD 0 = asset ∧ path2.getLastD 0 = asset) then
    Except.error "Paths must start and end with flash loan asset"
  else
    let st1 := { st with locked := true, inFlashLoan := true }
    match flashLoanSimple env st1 asset amount path1 path2 minProfit with
    | Except.error e => Except.error e
    | Except.ok st2 => Except.ok { st2 with inFlashLoan := false, locked := false }

/-- Ledger-level atomicity: a transaction that reverts leaves the
pre-state; one that succeeds installs the new state. -/
def flashArbitrageTx (env : Env) (st : ChainState) (msgSender asset amount : Nat)
    (path1 path2 : List Nat) (minProfit : Nat) : ChainState :=
  match flashArbitrage env st msgSender asset amount path1 path2 minProfit with
  | Except.ok st2 => st2
  | Except.error _ => st

/-- A direct (spoofed) `executeOperation` transaction, with the same
all-or-nothing wrapper. -/
def executeOperationTx (env : Env) (st : ChainState)
    (msgSender asset amount premium initiator : Nat)
    (path1 path2 : List Nat) (minProfit : Nat) : ChainState :=
  match executeOperation env st msgSender asset amount premium initiator path1 path2 minProfit with
  | Except.ok (_, st2) => st2
  | Except.error _ => st

/-- Value of a successful swap-pipeline result, `none` on revert
(projection helper for concrete runs). -/
def okValue (r : Except String (Nat × ChainState)) : Option Nat :=
  match r with
  | Except.ok (v, _) => some v
  | Except.error _ => none

/-- State of a successful swap-pipeline result, with a fallback for
the revert case (projection helper for concrete runs). -/
def okState (r : Except String (Nat × ChainState)) (dflt : ChainState) : ChainState :=
  match r with
  | Except.ok (_, s) => s
  | Except.error _ => dflt

end Contract

namespace Bot

/-- Externally visible actions of one execution attempt. -/
inductive BotAction where
  | signBundle
  | simulateBundle (targetBlock : Nat)
  | sendBundle (targetBlock : Nat)
  | staticCallSimulate
  | sendPublicTx
deriving Repr, DecidableEq

/-- How one execution attempt ends: normally, or by throwing. -/
inductive BotResult where
  | returned
  | threw (msg : String)
deriving Repr, DecidableEq

/-- Outcome of one execution attempt: the external actions taken in
order, how the method ended, and whether it recorded a circuit-breaker
failure or success. -/
structure BotOutcome where
  actions : List BotAction
  result : BotResult
  recordedFailure : Bool
  recordedSuccess : Bool
deriving Repr, DecidableEq

/-- Responses of the outside world consumed by one execution attempt
(wall clock, reserve data presence, slippage verdict, block number,
Flashbots simulation verdict, `bundleSubmission.wait()` answer, static
call and receipt verdicts, gas check verdict). -/
structure BotOracle where
  opportunityAgeMs : Nat
  hasReserves : Bool
  slippageProfitable : Bool
  currentBlock : Nat
  simulationFails : Bool
  waitResponse : Nat
  gasTooHigh : Bool
  staticCallOk : Bool
  receiptOk : Bool
deriving Repr, DecidableEq

/-- Embeds the FIRST `executeViaMempool` definition in the
`ArbitrageBot` class body (the Flashbots bundle path): staleness gate
(`ageMs > 3000` skips), the slippage-protection gate (present twice in
the source with identical behaviour), then sign the bundle, simulate
it against `currentBlock + 1`; a simulated failure records a
circuit-breaker failure and returns without submitting; otherwise the
bundle is sent and `wait()` is interpreted as 0 = included
(`recordSuccess`), 1 = block passed without inclusion (logged only,
nothing recorded), other = rejected (`recordFailure`). -/
def flashbotsBundleBody (o : BotOracle) : BotOutcome :=
  if 3000 < o.opportunityAgeMs then
    { actions := [], result := BotResult.returned
      recordedFailure := false, recordedSuccess := false }
  else if o.hasReserves ∧ ¬ o.slippageProfitable then
    { actions := [], result := BotResult.returned
      recordedFailure := false, recordedSuccess := false }
  else
    let targetBlock := o.currentBlock + 1
    let acts := [BotAction.signBundle, BotAction.simulateBundle targetBlock]
    if o.simulationFails then
      { actions := acts, result := BotResult.returned
        recordedFailure := true, recordedSuccess := false }
    else
      let acts := acts ++ [BotAction.sendBundle targetBlock]
      if o.waitResponse = 0 then
        { actions := acts, result := BotResult.returned
          recordedFailure := false, recordedSuccess := true }
      else if o.waitResponse = 1 then
        { actions := acts, result := BotResult.returned
          recordedFailure := false, recordedSuccess := false }
      else
        { actions := acts, result := BotResult.returned
          recordedFailure := true, recordedSuccess := false }

/-- Embeds the SECOND `executeViaMempool` definition (the public
mempool path): staleness gate, gas-cost-vs-profit gate, `staticCall`
dry run (failure records a breaker failure and returns), then the real
transaction; a reverted receipt or submission error records a failure,
a successful receipt records a success. -/
def publicMempoolBody (o : BotOracle) : BotOutcome :=
  if 3000 < o.opportunityAgeMs then
    { actions := [], result := BotResult.returned
      recordedFailure := false, recordedSuccess := false }
  else if o.gasTooHigh then
    { actions := [], result := BotResult.returned
      recordedFailure := false, recordedSuccess := false }
  else if ¬ o.staticCallOk then
    { actions := [BotAction.staticCallSimulate], result := BotResult.returned
      recordedFailure := true, recordedSuccess := false }
  else if o.receiptOk then
    { actions := [BotAction.staticCallSimulate, BotAction.sendPublicTx]
      result := BotResult.returned
      recordedFailure := false, recordedSuccess := true }
  else
    { actions := [BotAction.staticCallSimulate, BotAction.sendPublicTx]
      result := BotResult.returned
      recordedFailure := true, recordedSuccess := false }

/-- The method names defined in the `ArbitrageBot` class body, in
source order.  JavaScript class semantics: a later definition of the
same name overwrites the earlier one on the prototype. -/
def classMethodNames : List String :=
  ["constructor", "initialize", "runSelfTest", "scanForOpportunities",
   "runTestFlow", "executeArbitrage", "scanRealOpportunities",
   "executeArbitrageReal", "executeFlashLoanArbitrage",
   "executeViaMempool", "executeViaMempool", "executeLegacyArbitrage",
   "start", "sleep"]

/-- The two `executeViaMempool` bodies keyed by their method name, in
source order. -/
def mempoolBodies : List (String × (BotOracle → BotOutcome)) :=
  [("executeViaMempool", flashbotsBundleBody),
   ("executeViaMempool", publicMempoolBody)]

/-- Prototype lookup: the LAST class-body definition of a name wins.
Answers `none` when the class defines no method of that name (calling
it is then a `TypeError`). -/
def resolveMethod (nm : String) : Option (BotOracle → BotOutcome) :=
  if nm ∈ classMethodNames then
    ((mempoolBodies.filter (fun p => p.1 = nm)).getLast?).map Prod.snd
  else none

/-- Embeds `ArbitrageBot.executeFlashLoanArbitrage`: with a Flashbots
provider it calls `this.executeViaFlashbots(opportunity)`, otherwise
`this.executeViaMempool(opportunity)`; invoking a name the class never
defines throws a `TypeError` before any external action happens. -/
def executeFlashLoanArbitrage (hasFlashbotsProvider : Bool) (o : BotOracle) : BotOutcome :=
  if hasFlashbotsProvider then
    match resolveMethod "executeViaFlashbots" with
    | some body => body o
    | none =>
        { actions := []
          result := BotResult.threw "TypeError: this.executeViaFlashbots is not a function"
          recordedFailure := false, recordedSuccess := false }
  else
    match resolveMethod "executeViaMempool" with
    | some body => body o
    | none =>
        { actions := []
          result := BotResult.threw "TypeError: this.executeViaMempool is not a function"
          recordedFailure := false, recordedSuccess := false }

end Bot

namespace Fixtures

open Contract

/-- A well-configured contract state: owner 100, pool 5, routers 11
and 12, contract address 7, unpaused, idle. -/
def stG : ChainState :=
  { self := 7, owner := 100, aavePool := 5, router1 := 11, router2 := 12
    paused := false, locked := false, inFlashLoan := false
    totalProfits := 0, balances := fun _ => 0, allowance := fun _ _ => 0
    events := [], calls := [] }

/-- Routers that quote 20000 for the hop-1 path `[1, 2]` and 10200 for
every other path, honouring any satisfiable minimum, touching no
state. -/
def envW : Env :=
  { swap := fun c s => some ([c.amountIn, if c.path = [1, 2] then 20000 else 10200], s)
    blockTimestamp := 0 }

/-- Routers where hop 1 succeeds with 20000, the hop-2 call on router
12 succeeds but returns a zero final amount, and the hop-2 call on
router 11 would succeed with 20000. -/
def envZ : Env :=
  { swap := fun c s =>
      if c.hop = 1 then some ([c.amountIn, 20000], s)
      else if c.router = 12 then some ([c.amountIn, 0], s)
      else some ([c.amountIn, 20000], s)
    blockTimestamp := 0 }

/-- Routers that always revert. -/
def envFail : Env :=
  { swap := fun _ _ => none, blockTimestamp := 0 }

/-- An honest constant-quote router family: a request on the hop-1
path `p1` is quoted `m`, any other request is quoted `o`, and — as a
real Uniswap V2 router does — a call whose `amountOutMin` exceeds the
quote reverts instead of under-delivering.  No state is touched. -/
def honestEnv (p1 : List Nat) (m o : Nat) : Env :=
  { swap := fun c s =>
      let out := if c.path = p1 then m else o
      if c.amountOutMin ≤ out then some ([c.amountIn, out], s) else none
    blockTimestamp := 0 }

/-- A slippage-calculator opportunity snapshot used to instantiate the
guard theorems. -/
def oppW : Slippage.SlOpportunity :=
  { reserve0A := 1000000, reserve1A := 2000000
    reserve0B := 2000000, reserve1B := 4000000, profit := 42 }

/-- Scanner environment quoting two pools on the same token pair
(tokens 1 and 2): pool 10 is rich in token 2, pool 20 is rich in
token 1, so a 1 → 2 → 1 round trip through 10 then 20 gains. -/
def scanEnvW : Scanner.ScanEnv :=
  { getReserves := fun pairAddress =>
      if pairAddress = 10 then
        some { reserve0 := 1000000, reserve1 := 2000000, token0 := 1, token1 := 2 }
      else if pairAddress = 20 then
        some { reserve0 := 2000000, reserve1 := 4000000, token0 := 2, token1 := 1 }
      else none }

/-- The scanner pair table for `scanEnvW`: the same token pair under
two different venue identities. -/
def pairsW : List Scanner.PairEntry :=
  [{ key := ["WETH", "USDC", "uni"], pair := 10, dex := "uniswap"
     token0 := "USDC", token1 := "WETH" },
   { key := ["WETH", "USDC", "sushi"], pair := 20, dex := "sushiswap"
     token0 := "USDC", token1 := "WETH" }]

/-- The single hit `scanAll scanEnvW pairsW 1 1000` produces:
1000 → 1992 → 3968 through pools 10 and 20, profit 2968. -/
def hitW : Scanner.ScanHit :=
  { opp :=
      { profitable := true, profit := 2968, amountIn := 1000, amountOut := 3968
        path := [1, 2], pathReverse := [2, 1], pair1 := 10, pair2 := 20 }
    dex1 := "uniswap", dex2 := "sushiswap", pairName := ["WETH", "USDC", "uni"] }

end Fixtures

section ScannerClaims

open Scanner

/-- Helper: a `findArbitrageCore` record that reports `profitable`
carries the scanned `amountIn` and a strictly larger final amount. -/
theorem findArbitrageCore_profitable_spec (r1 r2 : Reserves) (tIn aIn q1 q2 : Nat)
    (h : (findArbitrageCore r1 r2 tIn aIn q1 q2).profitable = true) :
    (findArbitrageCore r1 r2 tIn aIn q1 q2).amountIn = aIn
    ∧ aIn < (findArbitrageCore r1 r2 tIn aIn q1 q2).amountOut
    ∧ 0 < (findArbitrageCore r1 r2 tIn aIn q1 q2).profit := by
  dsimp only [findArbitrageCore] at h ⊢
  rw [decide_eq_true_eq] at h
  refine ⟨rfl, ?_, h⟩
  by_contra hno
  rw [if_neg hno] at h
  exact Nat.lt_irrefl 0 h

/-- Helper: same for `findArbitrage` (its catch branch is never
profitable). -/
theorem findArbitrage_profitable_spec (env : ScanEnv) (p1 p2 tIn aIn : Nat)
    (h : (findArbitrage env p1 p2 tIn aIn).profitable = true) :
    (findArbitrage env p1 p2 tIn aIn).amountIn = aIn
    ∧ aIn < (findArbitrage env p1 p2 tIn aIn).amountOut
    ∧ 0 < (findArbitrage env p1 p2 tIn aIn).profit := by
  revert h
  unfold findArbitrage
  cases env.getReserves p1 with
  | none => intro h; cases h
  | some r1 =>
      cases env.getReserves p2 with
      | none => intro h; cases h
      | some r2 => exact findArbitrageCore_profitable_spec r1 r2 tIn aIn p1 p2

/-- C7: the V2 scanner's `calculateAmountOut` is the integer closed
form floor(amountIn·997·reserveOut / (reserveIn·1000 + amountIn·997)),
and at reserveIn = 1000, reserveOut = 500, amountIn = 10 it returns
the documented regression value 4. -/
theorem calculateAmountOut_closed_form :
    (∀ amountIn reserveIn reserveOut : Nat,
        calculateAmountOut amountIn reserveIn reserveOut
          = amountIn * 997 * reserveOut / (reserveIn * 1000 + amountIn * 997))
    ∧ calculateAmountOut 10 1000 500 = 4 :=
  ⟨fun _ _ _ => rfl, by decide⟩

/-- C8: every hit `scanAll` returns is a round trip whose final amount
strictly exceeds the scanned `amountIn` (profit > 0), and the returned
list is pairwise descending in profit. -/
theorem scanAll_profitable_sorted (env : ScanEnv) (pairs : List PairEntry) (tokenIn amountIn : Nat) :
    (∀ hit ∈ scanAll env pairs tokenIn amountIn,
        hit.opp.amountIn = amountIn ∧ amountIn < hit.opp.amountOut ∧ 0 < hit.opp.profit)
    ∧ (scanAll env pairs tokenIn amountIn).Pairwise
        (fun a b => b.opp.profit ≤ a.opp.profit) := by
  constructor
  · intro hit hmem
    rw [scanAll] at hmem
    have hmem2 := (List.perm_insertionSort profitDescending _).mem_iff.mp hmem
    rw [List.mem_filterMap] at hmem2
    obtain ⟨pq, _, hf⟩ := hmem2
    by_cases hguard : tokenIdOfKey pq.1.key = tokenIdOfKey pq.2.key ∧ pq.1.dex ≠ pq.2.dex
    · rw [if_pos hguard] at hf
      by_cases hprof : (findArbitrage env pq.1.pair pq.2.pair tokenIn amountIn).profitable = true
      · rw [if_pos hprof] at hf
        obtain ⟨ha, hb, hc⟩ := findArbitrage_profitable_spec env pq.1.pair pq.2.pair tokenIn amountIn hprof
        cases hf
        exact ⟨ha, hb, hc⟩
      · rw [if_neg hprof] at hf
        cases hf
    · rw [if_neg hguard] at hf
      cases hf
  · haveI : IsTotal ScanHit profitDescending :=
      ⟨fun a b => Nat.le_total b.opp.profit a.opp.profit⟩
    haveI : IsTrans ScanHit profitDescending :=
      ⟨fun _ _ _ hab hbc => Nat.le_trans hbc hab⟩
    rw [scanAll]
    exact List.sorted_insertionSort profitDescending _

/-- Witness for C8 at a concrete two-venue table: the profitable hit
is found and its round trip strictly gains. -/
theorem scanAll_profitable_sorted_witness :
    Fixtures.hitW ∈ scanAll Fixtures.scanEnvW Fixtures.pairsW 1 1000
    ∧ 1000 < Fixtures.hitW.opp.amountOut ∧ 0 < Fixtures.hitW.opp.profit := by
  have hm : Fixtures.hitW ∈ scanAll Fixtures.scanEnvW Fixtures.pairsW 1 1000 := by decide
  have h := (scanAll_profitable_sorted Fixtures.scanEnvW Fixtures.pairsW 1 1000).1
    Fixtures.hitW hm
  exact ⟨hm, h.2.1, h.2.2⟩

end ScannerClaims

section BreakerClaims

open Breaker

/-- Helper: one `recordFailure` bumps the counter, stamps the time,
keeps configuration, and maintains the invariant that the state is
`OPEN` exactly when the counter has ever reached `maxFailures` (given
it held before and the breaker is not in `HALF_OPEN`). -/
theorem recordFailure_invariant (cb : CircuitBreaker) (t : Nat)
    (hst : cb.state = (if cb.maxFailures ≤ cb.failures then BState.OPEN else BState.CLOSED)) :
    ((recordFailure cb t).1).maxFailures = cb.maxFailures
    ∧ ((recordFailure cb t).1).resetTimeout = cb.resetTimeout
    ∧ ((recordFailure cb t).1).failures = cb.failures + 1
    ∧ ((recordFailure cb t).1).lastFailureTime = some t
    ∧ ((recordFailure cb t).1).state
        = (if cb.maxFailures ≤ cb.failures + 1 then BState.OPEN else BState.CLOSED) := by
  unfold recordFailure
  by_cases h : cb.maxFailures ≤ cb.failures + 1
  · rw [if_pos h]
    exact ⟨rfl, rfl, rfl, rfl, (if_pos h).symm⟩
  · rw [if_neg h]
    refine ⟨rfl, rfl, rfl, rfl, ?_⟩
    rw [if_neg h, hst, if_neg (fun hle => h (Nat.le_succ_of_le hle))]

/-- Helper: a run of consecutive `recordFailure` calls starting from a
state satisfying the `OPEN` ⟺ counter-saturated invariant. -/
theorem recordFailures_spec (ts : List Nat) :
    ∀ cb : CircuitBreaker,
      cb.state = (if cb.maxFailures ≤ cb.failures then BState.OPEN else BState.CLOSED) →
      (recordFailures cb ts).maxFailures = cb.maxFailures
      ∧ (recordFailures cb ts).resetTimeout = cb.resetTimeout
      ∧ (recordFailures cb ts).failures = cb.failures + ts.length
      ∧ (recordFailures cb ts).lastFailureTime
          = (ts.getLast?.elim cb.lastFailureTime some)
      ∧ (recordFailures cb ts).state
          = (if cb.maxFailures ≤ cb.failures + ts.length then BState.OPEN else BState.CLOSED) := by
  induction ts with
  | nil =>
      intro cb hst
      exact ⟨rfl, rfl, rfl, rfl, hst⟩
  | cons t ts ih =>
      intro cb hst
      obtain ⟨h1, h2, h3, h4, h5⟩ := recordFailure_invariant cb t hst
      have hinv : ((recordFailure cb t).1).state
          = (if ((recordFailure cb t).1).maxFailures ≤ ((recordFailure cb t).1).failures
             then BState.OPEN else BState.CLOSED) := by
        rw [h5, h1, h3]
      obtain ⟨g1, g2, g3, g4, g5⟩ := ih ((recordFailure cb t).1) hinv
      have hrf : recordFailures cb (t :: ts) = recordFailures (recordFailure cb t).1 ts := rfl
      rw [hrf]
      refine ⟨g1.trans h1, g2.trans h2, ?_, ?_, ?_⟩
      · rw [g3, h3, List.length_cons]
        omega
      · rw [g4, h4]
        cases hts : ts.getLast? with
        | none =>
            cases ts with
            | nil => rfl
            | cons a as => simp [List.getLast?_cons] at hts
        | some tl =>
            have : (t :: ts).getLast? = some tl := by
              rw [List.getLast?_cons, hts]
              rfl
            rw [this]
            rfl
      · rw [g5, h1, h3, List.length_cons]
        have : cb.failures + 1 + ts.length = cb.failures + (ts.length + 1) := by omega
        rw [this]

/-- C3 (amended): starting from a fresh breaker, after exactly
`maxFailures` consecutive `recordFailure()` calls the breaker is
`OPEN` and `shouldAllowRequest()` answers `false` while at most
`resetTimeout` has passed since the last failure; once strictly more
than `resetTimeout` has elapsed, `shouldAllowRequest()` answers `true`
and moves to `HALF_OPEN` with the failure counter reset — but every
further `shouldAllowRequest()` also answers `true` (not exactly once),
and an immediately following `recordFailure()` leaves the breaker in
`HALF_OPEN` and still answering `true` whenever `maxFailures > 1`:
re-opening takes `maxFailures` further consecutive failures. -/
theorem circuitBreaker_transitions (m r mp tl now now2 tf : Nat) (ts : List Nat)
    (hlen : ts.length = (mkBreaker m r mp).maxFailures)
    (hlast : ts.getLast? = some tl)
    (hsoon : now - tl ≤ (mkBreaker m r mp).resetTimeout)
    (hlate : (mkBreaker m r mp).resetTimeout < now2 - tl) :
    (recordFailures (mkBreaker m r mp) ts).state = BState.OPEN
    ∧ (shouldAllowRequest (recordFailures (mkBreaker m r mp) ts) now).2 = false
    ∧ (shouldAllowRequest (recordFailures (mkBreaker m r mp) ts) now2).2 = true
    ∧ (shouldAllowRequest (recordFailures (mkBreaker m r mp) ts) now2).1.state = BState.HALF_OPEN
    ∧ (shouldAllowRequest (recordFailures (mkBreaker m r mp) ts) now2).1.failures = 0
    ∧ (∀ cb : CircuitBreaker, cb.state = BState.HALF_OPEN → (shouldAllowRequest cb now2).2 = true)
    ∧ (1 < (mkBreaker m r mp).maxFailures →
        (recordFailure (shouldAllowRequest (recordFailures (mkBreaker m r mp) ts) now2).1 tf).1.state
            = BState.HALF_OPEN
          ∧ (shouldAllowRequest
              (recordFailure (shouldAllowRequest (recordFailures (mkBreaker m r mp) ts) now2).1 tf).1
              tf).2 = true) := by
  have hm1 : 1 ≤ (mkBreaker m r mp).maxFailures := by
    unfold mkBreaker
    dsimp only
    split <;> omega
  have hinit : (mkBreaker m r mp).state
      = (if (mkBreaker m r mp).maxFailures ≤ (mkBreaker m r mp).failures
         then BState.OPEN else BState.CLOSED) := by
    have : ¬ (mkBreaker m r mp).maxFailures ≤ (mkBreaker m r mp).failures := by
      intro hle
      exact absurd (Nat.le_trans hm1 hle) (by simp [mkBreaker])
    rw [if_neg this]
    rfl
  obtain ⟨h1, h2, h3, h4, h5⟩ := recordFailures_spec ts (mkBreaker m r mp) hinit
  set cb1 := recordFailures (mkBreaker m r mp) ts with hcb1
  have hfail : cb1.failures = (mkBreaker m r mp).maxFailures := by
    rw [h3, hlen]
    simp [mkBreaker]
  have hopen : cb1.state = BState.OPEN := by
    rw [h5]
    rw [if_pos (by rw [hlen]; exact Nat.le_add_left _ _)]
  have hstamp : cb1.lastFailureTime = some tl := by
    rw [h4, hlast]
    rfl
  have hsar_false : (shouldAllowRequest cb1 now).2 = false := by
    unfold shouldAllowRequest
    rw [hopen]
    dsimp only
    rw [hstamp]
    rw [if_neg (by dsimp only [Option.getD]; rw [h2]; omega)]
  have hsar_true : (shouldAllowRequest cb1 now2) =
      ({ cb1 with state := BState.HALF_OPEN, failures := 0 }, true) := by
    unfold shouldAllowRequest
    rw [hopen]
    dsimp only
    rw [hstamp]
    rw [if_pos (by dsimp only [Option.getD]; rw [h2]; omega)]
  refine ⟨hopen, hsar_false, ?_, ?_, ?_, ?_, ?_⟩
  · rw [hsar_true]
  · rw [hsar_true]
  · rw [hsar_true]
  · intro cb hhalf
    unfold shouldAllowRequest
    rw [hhalf]
  · intro hmax
    rw [hsar_true]
    have hcond : ¬ cb1.maxFailures ≤ 0 + 1 := by
      intro hle
      rw [h1] at hle
      omega
    constructor
    · unfold recordFailure
      dsimp only
      rw [if_neg hcond]
    · unfold recordFailure
      dsimp only
      rw [if_neg hcond]
      unfold shouldAllowRequest
      rfl

/-- Witness for C3 (amended) at `maxFailures = 2`,
`resetTimeout = 10`, failures at 100 and 101, probes at 105 and
112: blocked at 105, allowed at 112 entering `HALF_OPEN`, and a trial
failure at 113 leaves it `HALF_OPEN` and still allowing. -/
theorem circuitBreaker_transitions_witness :
    (recordFailures (mkBreaker 2 10 0) [100, 101]).state = BState.OPEN
    ∧ (shouldAllowRequest (recordFailures (mkBreaker 2 10 0) [100, 101]) 105).2 = false
    ∧ (shouldAllowRequest (recordFailures (mkBreaker 2 10 0) [100, 101]) 112).2 = true
    ∧ (recordFailure
        (shouldAllowRequest (recordFailures (mkBreaker 2 10 0) [100, 101]) 112).1 113).1.state
        = BState.HALF_OPEN := by
  have h := circuitBreaker_transitions 2 10 0 101 105 112 113 [100, 101]
    (by decide) (by decide) (by decide) (by decide)
  exact ⟨h.1, h.2.1, h.2.2.1, (h.2.2.2.2.2.2 (by decide)).1⟩

/-- C3 counterexample: with `maxFailures = 2`, `resetTimeout = 10` and
two failures at times 100 and 101, the `shouldAllowRequest` at 112
(after the timeout) answers `true` — but so does a second consecutive
`shouldAllowRequest` (not "exactly once"), and after an immediately
following `recordFailure` at 113 the next `shouldAllowRequest` STILL
answers `true`, where the claim demands `false` (the trial failure
does not re-open the breaker: the counter was reset on entering
`HALF_OPEN` and `recordFailure` in `HALF_OPEN` only re-opens once it
climbs back to `maxFailures`). -/
theorem circuitBreaker_halfOpen_counterexample :
    (shouldAllowRequest
      (shouldAllowRequest (recordFailures (mkBreaker 2 10 0) [100, 101]) 112).1 112).2 = true
    ∧ (shouldAllowRequest
        (recordFailure
          (shouldAllowRequest (recordFailures (mkBreaker 2 10 0) [100, 101]) 112).1 113).1
        113).2 = true := by
  decide

end BreakerClaims

section SlippageClaims

open Slippage

/-- C9: `getProtectedParameters` reports `isProfitable` exactly when
the computed `minAmountOut2` strictly exceeds the flash-loan amount
plus the 0.05% lender premium `flashLoanAmount * 5 / 10000`. -/
theorem getProtectedParameters_isProfitable_iff
    (slippageBasisPoints : Nat) (opp : SlOpportunity) (flashLoanAmount : Nat) :
    (getProtectedParameters slippageBasisPoints opp flashLoanAmount).isProfitable = true
      ↔ flashLoanAmount + flashLoanAmount * 5 / 10000
          < (getProtectedParameters slippageBasisPoints opp flashLoanAmount).minAmountOut2 := by
  unfold getProtectedParameters isProfitableWithSlippage
  dsimp only
  rw [decide_eq_true_eq]

/-- Witness for C9 at the concrete snapshot `oppW`, 2% slippage and a
10000-unit loan. -/
theorem getProtectedParameters_isProfitable_iff_witness :
    ((getProtectedParameters 200 Fixtures.oppW 10000).isProfitable = true
      ↔ 10000 + 10000 * 5 / 10000
          < (getProtectedParameters 200 Fixtures.oppW 10000).minAmountOut2) :=
  getProtectedParameters_isProfitable_iff 200 Fixtures.oppW 10000

end SlippageClaims

section ContractHelpers

open Contract

/-- Helper: a successful `_executeSwaps` run passed both final
`require`s: the delivered amount is non-zero and at least the 0.5%
floor over the borrowed principal. -/
theorem executeSwaps_ok_bounds (env : Env) (st : ChainState)
    (asset amount : Nat) (path1 path2 : List Nat) (v : Nat) (stF : ChainState)
    (h : executeSwaps env st asset amount path1 path2 = Except.ok (v, stF)) :
    0 < v ∧ amount + amount * 50 / 10000 ≤ v := by
  unfold executeSwaps at h
  dsimp only at h
  cases hsw : env.swap
      { router := st.router1, amountIn := amount, amountOutMin := 0
        path := path1, deadline := env.blockTimestamp + 300, hop := 1 }
      (logCall (approve st asset st.router1 amount)
        { router := st.router1, amountIn := amount, amountOutMin := 0
          path := path1, deadline := env.blockTimestamp + 300, hop := 1 }) with
  | none => rw [hsw] at h; cases h
  | some res =>
      obtain ⟨amounts1, st2⟩ := res
      rw [hsw] at h
      dsimp only at h
      cases hp1 : path1.getLast? with
      | none => rw [hp1] at h; cases hA : amounts1.getLast? <;> rw [hA] at h <;> cases h
      | some it =>
          cases hA : amounts1.getLast? with
          | none => rw [hp1, hA] at h; cases h
          | some ia =>
              rw [hp1, hA] at h
              dsimp only at h
              cases htr : tryRouters env (approve st2 it st2.router2 ia)
                  [st2.router2, st2.router1] ia (amount * 101 / 100) path2
                  (env.blockTimestamp + 300) with
              | error e => rw [htr] at h; cases h
              | ok res2 =>
                  obtain ⟨ar, st4⟩ := res2
                  rw [htr] at h
                  dsimp only at h
                  by_cases h0 : 0 < ar
                  · rw [if_pos h0] at h
                    by_cases h50 : amount + amount * 50 / 10000 ≤ ar
                    · rw [if_pos h50] at h
                      cases h
                      exact ⟨h0, h50⟩
                    · rw [if_neg h50] at h; cases h
                  · rw [if_neg h0] at h; cases h

/-- Helper: a successful `executeOperation` implies all three
spoof/reentry guards held. -/
theorem executeOperation_ok_guards (env : Env) (st : ChainState)
    (ms asset amount premium initiator : Nat) (p1 p2 : List Nat) (mp : Nat)
    (out : Bool × ChainState)
    (h : executeOperation env st ms asset amount premium initiator p1 p2 mp = Except.ok out) :
    ms = st.aavePool ∧ initiator = st.self ∧ st.inFlashLoan = true := by
  unfold executeOperation at h
  by_cases h1 : ms = st.aavePool
  · by_cases h2 : initiator = st.self
    · by_cases h3 : st.inFlashLoan = true
      · exact ⟨h1, h2, h3⟩
      · rw [if_pos h1, if_pos h2, if_neg h3] at h; cases h
    · rw [if_pos h1, if_neg h2] at h; cases h
  · rw [if_neg h1] at h; cases h

/-- Helper: the ghost-log shape of the hop-2 fallback loop, when the
routers do not write the ghost log themselves: a successful loop
appends only hop-2 requests, each carrying the `amountOutMin` the loop
was given. -/
theorem tryRouters_calls_spec (env : Env)
    (hkeep : ∀ c s amts s2, env.swap c s = some (amts, s2) → s2.calls = s.calls)
    (rs : List Nat) :
    ∀ (st : ChainState) (aIn mOut : Nat) (p : List Nat) (dl v : Nat) (stF : ChainState),
      tryRouters env st rs aIn mOut p dl = Except.ok (v, stF) →
      ∃ extra, stF.calls = st.calls ++ extra
        ∧ ∀ c ∈ extra, c.hop = 2 ∧ c.amountOutMin = mOut := by
  induction rs with
  | nil =>
      intro st aIn mOut p dl v stF h
      unfold tryRouters at h
      cases h
      exact ⟨[], (List.append_nil _).symm, by intro c hc; cases hc⟩
  | cons r rest ih =>
      intro st aIn mOut p dl v stF h
      unfold tryRouters at h
      dsimp only at h
      cases hsw : env.swap
          { router := r, amountIn := aIn, amountOutMin := mOut, path := p, deadline := dl, hop := 2 }
          (logCall st
            { router := r, amountIn := aIn, amountOutMin := mOut, path := p, deadline := dl, hop := 2 }) with
      | some res =>
          obtain ⟨amounts, st2⟩ := res
          rw [hsw] at h
          dsimp only at h
          cases hA : amounts.getLast? with
          | none => rw [hA] at h; cases h
          | some w =>
              rw [hA] at h
              cases h
              refine ⟨[{ router := r, amountIn := aIn, amountOutMin := mOut
                         path := p, deadline := dl, hop := 2 }], ?_, ?_⟩
              · rw [hkeep _ _ _ _ hsw]
                rfl
              · intro c hc
                cases hc with
                | head => exact ⟨rfl, rfl⟩
                | tail _ hc2 => cases hc2
      | none =>
          rw [hsw] at h
          dsimp only at h
          obtain ⟨extra, hcalls, hall⟩ := ih (logCall st
            { router := r, amountIn := aIn, amountOutMin := mOut, path := p, deadline := dl, hop := 2 })
            aIn mOut p dl v stF h
          refine ⟨{ router := r, amountIn := aIn, amountOutMin := mOut
                    path := p, deadline := dl, hop := 2 } :: extra, ?_, ?_⟩
          · rw [hcalls]
            simp [logCall]
          · intro c hc
            cases hc with
            | head => exact ⟨rfl, rfl⟩
            | tail _ hc2 => exact hall c hc2

/-- Helper: guard-passing propagation — when the hop-1/hop-2 pipeline
reverts from every state, a well-formed owner call of `flashArbitrage`
fails with the lender's callback-failure revert. -/
theorem flashArbitrage_error_of_swaps_error (env : Env) (st : ChainState)
    (asset amount : Nat) (p1 p2 : List Nat) (mp : Nat)
    (hswaps : ∀ s : ChainState, ∃ e, executeSwaps env s asset amount p1 p2 = Except.error e)
    (hlocked : st.locked = false) (hpaused : st.paused = false)
    (hpool : st.aavePool ≠ 0) (hr1 : st.router1 ≠ 0) (hr2 : st.router2 ≠ 0)
    (hlen : 2 ≤ p1.length ∧ 2 ≤ p2.length)
    (hends : p1.headD 0 = asset ∧ p2.getLastD 0 = asset) :
    flashArbitrage env st st.owner asset amount p1 p2 mp
      = Except.error "Flash loan callback failed" := by
  unfold flashArbitrage
  rw [if_neg (by intro hne; exact hne rfl)]
  rw [if_neg (by rw [hlocked]; exact Bool.false_ne_true)]
  rw [if_neg (by rw [hpaused]; exact Bool.false_ne_true)]
  rw [if_neg hpool]
  rw [if_neg (by intro hor; cases hor with
    | inl h => exact hr1 h
    | inr h => exact hr2 h)]
  rw [if_neg (by intro hno; exact hno hlen)]
  rw [if_neg (by intro hno; exact hno hends)]
  unfold flashLoanSimple executeOperation
  dsimp only
  rw [if_pos rfl, if_pos rfl, if_pos rfl]
  obtain ⟨e, he⟩ := hswaps _
  rw [he]

end ContractHelpers

section HonestEnvHelpers

open Contract

/-- Helper: against the honest constant-quote routers, a hop-2
fallback loop whose requested minimum exceeds the quote exhausts every
candidate and comes back with `amountReceived = 0`. -/
theorem honestEnv_tryRouters_exhausts (p1 p2 : List Nat) (m o mOut : Nat)
    (hp : p2 ≠ p1) (hcap : ¬ mOut ≤ o) (rs : List Nat) :
    ∀ (s : ChainState) (aIn dl : Nat),
      ∃ s2, tryRouters (Fixtures.honestEnv p1 m o) s rs aIn mOut p2 dl
        = Except.ok (0, s2) := by
  induction rs with
  | nil =>
      intro s aIn dl
      exact ⟨s, rfl⟩
  | cons r rest ih =>
      intro s aIn dl
      unfold tryRouters
      dsimp only [Fixtures.honestEnv]
      rw [if_neg hp, if_neg hcap]
      exact ih _ aIn dl

/-- Helper: against the honest constant-quote routers, when the
hard-coded hop-2 minimum `(amount * 101) / 100` exceeds the hop-2
quote `o`, the whole `_executeSwaps` pipeline reverts with the
fallback-exhaustion message — from every starting state. -/
theorem honestEnv_executeSwaps_reverts (p1 p2 : List Nat) (m o asset amount : Nat)
    (hp : p2 ≠ p1) (hp1ne : p1 ≠ [])
    (hcap : o < amount * 101 / 100) :
    ∀ s : ChainState,
      executeSwaps (Fixtures.honestEnv p1 m o) s asset amount p1 p2
        = Except.error "All swap attempts failed" := by
  intro s
  have hs1 : ∀ (c : SwapCall) (X : ChainState), c.path = p1 → c.amountOutMin = 0 →
      (Fixtures.honestEnv p1 m o).swap c X = some ([c.amountIn, m], X) := by
    intro c X hpath hmin
    dsimp only [Fixtures.honestEnv]
    rw [hpath, hmin, if_pos (rfl : p1 = p1), if_pos (Nat.zero_le m)]
  unfold executeSwaps
  dsimp only
  rw [hs1 _ _ rfl rfl]
  dsimp only
  rw [List.getLast?_eq_getLast_of_ne_nil hp1ne]
  simp only [List.getLast?_cons_cons, List.getLast?_singleton]
  obtain ⟨s2, h2⟩ := honestEnv_tryRouters_exhausts p1 p2 m o (amount * 101 / 100) hp
    (not_le.mpr hcap) _ _ m ((Fixtures.honestEnv p1 m o).blockTimestamp + 300)
  rw [h2]
  dsimp only
  rw [if_neg (lt_irrefl 0)]

end HonestEnvHelpers

section ContractClaims

open Contract

/-- C1: atomicity of a flash-arbitrage attempt.  (1) Whenever the unit
reverts — which covers a hop-1 revert, hop-2 fallback exhaustion or
zero output, insufficient final output, and profit below `minProfit`,
all of which surface as `Except.error` — the transaction leaves
`totalProfits` and every token balance of the contract exactly as they
were.  (2) A spoofed or reentrant callback (wrong caller, wrong
initiator, or no loan in progress) always reverts and leaves the state
unchanged.  (3) Under the legitimate callback identity, a reverting
swap pipeline reverts the callback with the same error, and a
completed pipeline still reverts when the final amount does not
strictly exceed `amount + premium` or the margin is below
`minProfit`. -/
theorem flashArbitrage_atomicity :
    (∀ (env : Env) (st : ChainState) (ms asset amount : Nat) (p1 p2 : List Nat) (mp : Nat)
        (e : String),
        flashArbitrage env st ms asset amount p1 p2 mp = Except.error e →
        (flashArbitrageTx env st ms asset amount p1 p2 mp).totalProfits = st.totalProfits
        ∧ ∀ token, (flashArbitrageTx env st ms asset amount p1 p2 mp).balances token
            = st.balances token)
    ∧ (∀ (env : Env) (st : ChainState) (ms asset amount premium initiator : Nat)
        (p1 p2 : List Nat) (mp : Nat),
        (ms ≠ st.aavePool ∨ initiator ≠ st.self ∨ st.inFlashLoan = false) →
        (∃ e, executeOperation env st ms asset amount premium initiator p1 p2 mp
            = Except.error e)
        ∧ executeOperationTx env st ms asset amount premium initiator p1 p2 mp = st)
    ∧ (∀ (env : Env) (st : ChainState) (asset amount premium : Nat) (p1 p2 : List Nat)
        (mp : Nat),
        st.inFlashLoan = true →
        (∀ e, executeSwaps env st asset amount p1 p2 = Except.error e →
            executeOperation env st st.aavePool asset amount premium st.self p1 p2 mp
              = Except.error e)
        ∧ (∀ fa st1, executeSwaps env st asset amount p1 p2 = Except.ok (fa, st1) →
            (fa ≤ amount + premium →
              executeOperation env st st.aavePool asset amount premium st.self p1 p2 mp
                = Except.error "Arbitrage not profitable")
            ∧ (amount + premium < fa → fa - (amount + premium) < mp →
              executeOperation env st st.aavePool asset amount premium st.self p1 p2 mp
                = Except.error "Profit below minimum threshold"))) := by
  refine ⟨?_, ?_, ?_⟩
  · intro env st ms asset amount p1 p2 mp e h
    unfold flashArbitrageTx
    rw [h]
    exact ⟨rfl, fun _ => rfl⟩
  · intro env st ms asset amount premium initiator p1 p2 mp hbad
    cases hres : executeOperation env st ms asset amount premium initiator p1 p2 mp with
    | ok out =>
        obtain ⟨g1, g2, g3⟩ :=
          executeOperation_ok_guards env st ms asset amount premium initiator p1 p2 mp out hres
        rcases hbad with hb | hb | hb
        · exact absurd g1 hb
        · exact absurd g2 hb
        · rw [g3] at hb; cases hb
    | error e =>
        refine ⟨⟨e, rfl⟩, ?_⟩
        unfold executeOperationTx
        rw [hres]
  · intro env st asset amount premium p1 p2 mp hfl
    constructor
    · intro e he
      unfold executeOperation
      rw [if_pos rfl, if_pos rfl, if_pos hfl, he]
    · intro fa st1 hok
      constructor
      · intro hle
        unfold executeOperation
        rw [if_pos rfl, if_pos rfl, if_pos hfl, hok]
        dsimp only
        rw [if_neg (not_lt.mpr hle)]
      · intro hlt hmp
        unfold executeOperation
        rw [if_pos rfl, if_pos rfl, if_pos hfl, hok]
        dsimp only
        rw [if_pos hlt]
        rw [if_neg (not_le.mpr hmp)]

/-- Witness for C1: with always-reverting routers the owner call fails
and the profit counter is untouched; a spoofed callback from caller 3
(the pool is 5) reverts. -/
theorem flashArbitrage_atomicity_witness :
    (flashArbitrageTx Fixtures.envFail Fixtures.stG 100 1 10000 [1, 2] [2, 1] 0).totalProfits
      = Fixtures.stG.totalProfits
    ∧ ∃ e, executeOperation Fixtures.envFail Fixtures.stG 3 1 10 0 4 [1, 2] [2, 1] 0
        = Except.error e := by
  constructor
  · exact (flashArbitrage_atomicity.1 Fixtures.envFail Fixtures.stG 100 1 10000 [1, 2] [2, 1] 0
      "Flash loan callback failed" rfl).1
  · exact (flashArbitrage_atomicity.2.1 Fixtures.envFail Fixtures.stG 3 1 10 0 4 [1, 2] [2, 1] 0
      (Or.inl (by decide))).1

/-- C2: the loan callback computes `owed = amount + premium`, reverts
unless the final swap output strictly exceeds `owed`, then reverts
unless `finalAmount - owed` reaches `minProfit`; on success it sets
the lender's allowance to exactly `owed` (all other allowances
untouched), adds `finalAmount - owed` to `totalProfits`, and appends
the `FlashLoanExecuted` settlement event. -/
theorem executeOperation_settlement (env : Env) (st : ChainState)
    (asset amount premium : Nat) (p1 p2 : List Nat) (mp fa : Nat) (st1 : ChainState)
    (hfl : st.inFlashLoan = true)
    (hswaps : executeSwaps env st asset amount p1 p2 = Except.ok (fa, st1)) :
    (fa ≤ amount + premium →
      executeOperation env st st.aavePool asset amount premium st.self p1 p2 mp
        = Except.error "Arbitrage not profitable")
    ∧ (amount + premium < fa → fa - (amount + premium) < mp →
      executeOperation env st st.aavePool asset amount premium st.self p1 p2 mp
        = Except.error "Profit below minimum threshold")
    ∧ (amount + premium < fa → mp ≤ fa - (amount + premium) →
      ∃ stF, executeOperation env st st.aavePool asset amount premium st.self p1 p2 mp
          = Except.ok (true, stF)
        ∧ stF.allowance asset st1.aavePool = amount + premium
        ∧ (∀ tok sp, ¬ (tok = asset ∧ sp = st1.aavePool) →
            stF.allowance tok sp = st1.allowance tok sp)
        ∧ stF.totalProfits = st1.totalProfits + (fa - (amount + premium))
        ∧ stF.events = st1.events
            ++ [Event.FlashLoanExecuted asset amount (fa - (amount + premium)) premium]) := by
  refine ⟨?_, ?_, ?_⟩
  · intro hle
    unfold executeOperation
    rw [if_pos rfl, if_pos rfl, if_pos hfl, hswaps]
    dsimp only
    rw [if_neg (not_lt.mpr hle)]
  · intro hlt hmp
    unfold executeOperation
    rw [if_pos rfl, if_pos rfl, if_pos hfl, hswaps]
    dsimp only
    rw [if_pos hlt]
    rw [if_neg (not_le.mpr hmp)]
  · intro hlt hmp
    unfold executeOperation
    rw [if_pos rfl, if_pos rfl, if_pos hfl, hswaps]
    dsimp only
    rw [if_pos hlt]
    rw [if_pos hmp]
    refine ⟨_, rfl, ?_, ?_, rfl, rfl⟩
    · dsimp only [approve]
      rw [if_pos ⟨rfl, rfl⟩]
    · intro tok sp hne
      dsimp only [approve]
      rw [if_neg hne]

/-- Witness for C2 at a concrete profitable run: amount 10000, premium
5, final output 10200, minProfit 195 — the callback succeeds, records
195 profit and approves exactly 10005 to the pool. -/
theorem executeOperation_settlement_witness :
    ∃ stF, executeOperation Fixtures.envW { Fixtures.stG with inFlashLoan := true }
        { Fixtures.stG with inFlashLoan := true }.aavePool 1 10000 5
        { Fixtures.stG with inFlashLoan := true }.self [1, 2] [2, 1] 195
        = Except.ok (true, stF)
      ∧ stF.totalProfits = 195 ∧ stF.allowance 1 5 = 10005 := by
  obtain ⟨stF, hrun, hallow, hother, hprof, hev⟩ :=
    (executeOperation_settlement Fixtures.envW { Fixtures.stG with inFlashLoan := true }
      1 10000 5 [1, 2] [2, 1] 195 10200
      (okState (executeSwaps Fixtures.envW { Fixtures.stG with inFlashLoan := true }
        1 10000 [1, 2] [2, 1]) { Fixtures.stG with inFlashLoan := true })
      rfl rfl).2.2 (by decide) (by decide)
  refine ⟨stF, hrun, ?_, hallow⟩
  rw [hprof]
  rfl

end ContractClaims

section FallbackClaims

open Contract

/-- C4 (amended): the hop-2 loop tries the fixed ordered candidate
list `[router2, router1]` in sequence and accepts the first candidate
whose call does not revert — regardless of its output value, so a
succeeding zero-output candidate ends the search without trying the
next candidate; a reverting candidate falls through to the next; an
exhausted list leaves `amountReceived = 0`.  Zero output and
exhaustion then share the `"All swap attempts failed"` revert: a
completed `_executeSwaps` always delivered a positive amount (at least
the 0.5% floor). -/
theorem hop2_fallback_semantics (env : Env) (st : ChainState)
    (r1 r2 aIn mOut dl : Nat) (p : List Nat) :
    (∀ amounts st2,
        env.swap { router := r2, amountIn := aIn, amountOutMin := mOut, path := p
                   deadline := dl, hop := 2 }
          (logCall st { router := r2, amountIn := aIn, amountOutMin := mOut, path := p
                        deadline := dl, hop := 2 })
          = some (amounts, st2) →
        tryRouters env st [r2, r1] aIn mOut p dl
          = match amounts.getLast? with
            | some v => Except.ok (v, st2)
            | none => Except.error "Panic(0x11)")
    ∧ (env.swap { router := r2, amountIn := aIn, amountOutMin := mOut, path := p
                  deadline := dl, hop := 2 }
          (logCall st { router := r2, amountIn := aIn, amountOutMin := mOut, path := p
                        deadline := dl, hop := 2 })
          = none →
        tryRouters env st [r2, r1] aIn mOut p dl
          = tryRouters env
              (logCall st { router := r2, amountIn := aIn, amountOutMin := mOut, path := p
                            deadline := dl, hop := 2 })
              [r1] aIn mOut p dl)
    ∧ (∀ s : ChainState, tryRouters env s ([] : List Nat) aIn mOut p dl = Except.ok (0, s))
    ∧ (∀ (env2 : Env) (st2 : ChainState) (asset amount : Nat) (q1 q2 : List Nat)
        (v : Nat) (stF : ChainState),
        executeSwaps env2 st2 asset amount q1 q2 = Except.ok (v, stF) →
        0 < v ∧ amount + amount * 50 / 10000 ≤ v) := by
  refine ⟨?_, ?_, fun s => rfl, ?_⟩
  · intro amounts st2 hsw
    unfold tryRouters
    dsimp only
    rw [hsw]
  · intro hsw
    unfold tryRouters
    dsimp only
    rw [hsw]
    rfl
  · intro env2 st2 asset amount q1 q2 v stF h
    exact executeSwaps_ok_bounds env2 st2 asset amount q1 q2 v stF h

/-- Witness for C4 (amended): against `envZ` the first candidate
(router 12) succeeds with zero output and the loop stops there. -/
theorem hop2_fallback_semantics_witness :
    tryRouters Fixtures.envZ Fixtures.stG [12, 11] 20000 10100 [2, 1] 300
      = Except.ok (0, logCall Fixtures.stG
          { router := 12, amountIn := 20000, amountOutMin := 10100, path := [2, 1]
            deadline := 300, hop := 2 }) := by
  have h := (hop2_fallback_semantics Fixtures.envZ Fixtures.stG 11 12 20000 10100 300 [2, 1]).1
    [20000, 0]
    (logCall Fixtures.stG
      { router := 12, amountIn := 20000, amountOutMin := 10100, path := [2, 1]
        deadline := 300, hop := 2 })
    rfl
  exact h

/-- C4 counterexample: the claim says a candidate that succeeds but
returns zero output is not accepted and the NEXT candidate is tried.
Against `envZ` (router 12 succeeds with zero output, router 11 would
succeed with 20000) the loop in fact stops at router 12 with
`amountReceived = 0` — router 11, which alone would deliver 20000, is
never consulted — and the unit reverts with
`"All swap attempts failed"` instead of completing through the next
candidate. -/
theorem hop2_zero_output_counterexample :
    okValue (tryRouters Fixtures.envZ Fixtures.stG [12, 11] 20000 10100 [2, 1] 300) = some 0
    ∧ okValue (tryRouters Fixtures.envZ Fixtures.stG [11] 20000 10100 [2, 1] 300) = some 20000
    ∧ executeSwaps Fixtures.envZ Fixtures.stG 1 10000 [1, 2] [2, 1]
      = Except.error "All swap attempts failed" :=
  ⟨rfl, rfl, rfl⟩

/-- C5 (amended): of the four ledger-side profitability checks, the
final-output check (`finalAmount > amountOwed`) and the zero-output
check (`amountReceived > 0`) are strict — equality reverts — but the
minimum-profit check (`profit >= minProfit`) and the 0.5% floor
(`amountReceived >= amount + amount·50/10000`) are non-strict: the
unit SUCCEEDS when the realized profit merely equals `minProfit`. -/
theorem profit_comparisons_strictness :
    (∀ (env : Env) (st : ChainState) (asset amount premium : Nat) (p1 p2 : List Nat)
        (mp fa : Nat) (st1 : ChainState),
        st.inFlashLoan = true →
        executeSwaps env st asset amount p1 p2 = Except.ok (fa, st1) →
        fa = amount + premium →
        executeOperation env st st.aavePool asset amount premium st.self p1 p2 mp
          = Except.error "Arbitrage not profitable")
    ∧ (∀ (env : Env) (st : ChainState) (asset amount : Nat) (p1 p2 : List Nat)
        (v : Nat) (stF : ChainState),
        executeSwaps env st asset amount p1 p2 = Except.ok (v, stF) → 0 < v)
    ∧ (∀ (env : Env) (st : ChainState) (asset amount premium : Nat) (p1 p2 : List Nat)
        (fa : Nat) (st1 : ChainState),
        st.inFlashLoan = true →
        executeSwaps env st asset amount p1 p2 = Except.ok (fa, st1) →
        amount + premium < fa →
        ∃ stF, executeOperation env st st.aavePool asset amount premium st.self p1 p2
            (fa - (amount + premium))
          = Except.ok (true, stF)) := by
  refine ⟨?_, ?_, ?_⟩
  · intro env st asset amount premium p1 p2 mp fa st1 hfl hok hfa
    unfold executeOperation
    rw [if_pos rfl, if_pos rfl, if_pos hfl, hok]
    dsimp only
    rw [if_neg (not_lt.mpr (le_of_eq hfa))]
  · intro env st asset amount p1 p2 v stF h
    exact (executeSwaps_ok_bounds env st asset amount p1 p2 v stF h).1
  · intro env st asset amount premium p1 p2 fa st1 hfl hok hlt
    unfold executeOperation
    rw [if_pos rfl, if_pos rfl, if_pos hfl, hok]
    dsimp only
    rw [if_pos hlt]
    rw [if_pos (le_refl (fa - (amount + premium)))]
    exact ⟨_, rfl⟩

/-- Witness for C5 (amended): concrete success at equality — amount
10000, premium 5, final output 10200, `minProfit = 195 = profit`. -/
theorem profit_comparisons_strictness_witness :
    ∃ stF, executeOperation Fixtures.envW { Fixtures.stG with inFlashLoan := true }
        { Fixtures.stG with inFlashLoan := true }.aavePool 1 10000 5
        { Fixtures.stG with inFlashLoan := true }.self [1, 2] [2, 1] (10200 - (10000 + 5))
        = Except.ok (true, stF) :=
  profit_comparisons_strictness.2.2 Fixtures.envW { Fixtures.stG with inFlashLoan := true }
    1 10000 5 [1, 2] [2, 1] 10200
    (okState (executeSwaps Fixtures.envW { Fixtures.stG with inFlashLoan := true }
      1 10000 [1, 2] [2, 1]) { Fixtures.stG with inFlashLoan := true })
    rfl rfl (by decide)

/-- C5 counterexample: the claim says the unit never succeeds when a
compared quantity merely equals its threshold.  At amount 10000
(premium 5, so `owed = 10005`), final output 10200 and
`minProfit = 195`, the realized profit 10200 - 10005 = 195 exactly
equals `minProfit`, the `>=` check passes, and the whole unit
SUCCEEDS, incrementing `totalProfits` by 195. -/
theorem success_at_equal_minProfit_counterexample :
    (flashArbitrageTx Fixtures.envW Fixtures.stG 100 1 10000 [1, 2] [2, 1] 195).totalProfits
      = Fixtures.stG.totalProfits + 195
    ∧ 10200 - (10000 + 10000 * 5 / 10000) = 195 :=
  ⟨rfl, by decide⟩

end FallbackClaims

section FloorClaims

open Contract

/-- C10: independently of the caller's `minProfit`, `_executeSwaps`
enforces two hard-coded floors.  (1) Every hop-2 router request of a
completed run carries `amountOutMin = (amount * 101) / 100` (routers
that do not write the ghost log assumed).  (2) A completed run
delivered at least `amount + (amount * 50) / 10000` (and is non-zero).
(3) Consequently, against honest routers whose hop-2 quote `o` has a
positive gross margin below the 0.5% floor, a `flashArbitrage` call
with `minProfit = 0` still reverts: the requested hop-2 minimum
`(amount * 101) / 100` exceeds the quote, every candidate refuses, and
the unit fails with `"All swap attempts failed"` (surfacing as the
lender's callback-failure revert). -/
theorem executeSwaps_hardcoded_floors :
    (∀ (env : Env) (st : ChainState) (asset amount : Nat) (p1 p2 : List Nat)
        (v : Nat) (stF : ChainState),
        (∀ c s amts s2, env.swap c s = some (amts, s2) → s2.calls = s.calls) →
        executeSwaps env st asset amount p1 p2 = Except.ok (v, stF) →
        ∃ extra, stF.calls = st.calls ++ extra
          ∧ ∀ c ∈ extra, c.hop = 2 → c.amountOutMin = amount * 101 / 100)
    ∧ (∀ (env : Env) (st : ChainState) (asset amount : Nat) (p1 p2 : List Nat)
        (v : Nat) (stF : ChainState),
        executeSwaps env st asset amount p1 p2 = Except.ok (v, stF) →
        amount + amount * 50 / 10000 ≤ v ∧ 0 < v)
    ∧ (∀ (st : ChainState) (asset amount m o : Nat) (p1 p2 : List Nat),
        amount < o → o < amount + amount * 50 / 10000 →
        p2 ≠ p1 →
        st.locked = false → st.paused = false → st.aavePool ≠ 0 →
        st.router1 ≠ 0 → st.router2 ≠ 0 →
        2 ≤ p1.length → 2 ≤ p2.length →
        p1.headD 0 = asset → p2.getLastD 0 = asset →
        flashArbitrage (Fixtures.honestEnv p1 m o) st st.owner asset amount p1 p2 0
          = Except.error "Flash loan callback failed"
        ∧ ∀ s, executeSwaps (Fixtures.honestEnv p1 m o) s asset amount p1 p2
            = Except.error "All swap attempts failed") := by
  refine ⟨?_, ?_, ?_⟩
  · intro env st asset amount p1 p2 v stF hkeep h
    unfold executeSwaps at h
    dsimp only at h
    cases hsw : env.swap
        { router := st.router1, amountIn := amount, amountOutMin := 0
          path := p1, deadline := env.blockTimestamp + 300, hop := 1 }
        (logCall (approve st asset st.router1 amount)
          { router := st.router1, amountIn := amount, amountOutMin := 0
            path := p1, deadline := env.blockTimestamp + 300, hop := 1 }) with
    | none => rw [hsw] at h; cases h
    | some res =>
        obtain ⟨amounts1, st2⟩ := res
        rw [hsw] at h
        dsimp only at h
        cases hp1 : p1.getLast? with
        | none => rw [hp1] at h; cases hA : amounts1.getLast? <;> rw [hA] at h <;> cases h
        | some it =>
            cases hA : amounts1.getLast? with
            | none => rw [hp1, hA] at h; cases h
            | some ia =>
                rw [hp1, hA] at h
                dsimp only at h
                cases htr : tryRouters env (approve st2 it st2.router2 ia)
                    [st2.router2, st2.router1] ia (amount * 101 / 100) p2
                    (env.blockTimestamp + 300) with
                | error e => rw [htr] at h; cases h
                | ok res2 =>
                    obtain ⟨ar, st4⟩ := res2
                    rw [htr] at h
                    dsimp only at h
                    by_cases h0 : 0 < ar
                    · rw [if_pos h0] at h
                      by_cases h50 : amount + amount * 50 / 10000 ≤ ar
                      · rw [if_pos h50] at h
                        cases h
                        obtain ⟨extra2, hcalls2, hall2⟩ :=
                          tryRouters_calls_spec env hkeep [st2.router2, st2.router1]
                            (approve st2 it st2.router2 ia) ia (amount * 101 / 100) p2
                            (env.blockTimestamp + 300) v stF htr
                        have hc2 : st2.calls = st.calls ++
                            [{ router := st.router1, amountIn := amount, amountOutMin := 0
                               path := p1, deadline := env.blockTimestamp + 300, hop := 1 }] := by
                          rw [hkeep _ _ _ _ hsw]
                          rfl
                        refine ⟨{ router := st.router1, amountIn := amount, amountOutMin := 0
                                  path := p1, deadline := env.blockTimestamp + 300, hop := 1 }
                              :: extra2, ?_, ?_⟩
                        · rw [hcalls2]
                          have : (approve st2 it st2.router2 ia).calls = st2.calls := rfl
                          rw [this, hc2]
                          simp
                        · intro c hc
                          cases hc with
                          | head =>
                              intro hhop
                              cases hhop
                          | tail _ hc2 =>
                              intro _
                              exact (hall2 c hc2).2
                      · rw [if_neg h50] at h; cases h
                    · rw [if_neg h0] at h; cases h
  · intro env st asset amount p1 p2 v stF h
    have hb := executeSwaps_ok_bounds env st asset amount p1 p2 v stF h
    exact ⟨hb.2, hb.1⟩
  · intro st asset amount m o p1 p2 ho1 ho2 hp hlk hps hpool hr1 hr2 hl1 hl2 he1 he2
    have hp1ne : p1 ≠ [] := by
      intro hnil
      rw [hnil] at hl1
      simp at hl1
    have hcap : o < amount * 101 / 100 := by omega
    have hrev := honestEnv_executeSwaps_reverts p1 p2 m o asset amount hp hp1ne hcap
    refine ⟨?_, hrev⟩
    exact flashArbitrage_error_of_swaps_error (Fixtures.honestEnv p1 m o) st asset amount p1 p2 0
      (fun s => ⟨"All swap attempts failed", hrev s⟩) hlk hps hpool hr1 hr2 ⟨hl1, hl2⟩ ⟨he1, he2⟩

/-- Witness for C10: amount 10000 with `minProfit = 0`; the honest
hop-2 quote 10049 is a positive gross margin (49 above principal) but
below both floors, and the owner call reverts. -/
theorem executeSwaps_hardcoded_floors_witness :
    flashArbitrage (Fixtures.honestEnv [1, 2] 777 10049) Fixtures.stG Fixtures.stG.owner
        1 10000 [1, 2] [2, 1] 0
      = Except.error "Flash loan callback failed"
    ∧ (∃ extra, (okState (executeSwaps Fixtures.envW Fixtures.stG 1 10000 [1, 2] [2, 1])
          Fixtures.stG).calls = Fixtures.stG.calls ++ extra
        ∧ ∀ c ∈ extra, c.hop = 2 → c.amountOutMin = 10000 * 101 / 100) := by
  constructor
  · exact (executeSwaps_hardcoded_floors.2.2 Fixtures.stG 1 10000 777 10049 [1, 2] [2, 1]
      (by decide) (by decide) (by decide) rfl rfl (by decide) (by decide) (by decide)
      (by decide) (by decide) (by decide) (by decide)).1
  · exact executeSwaps_hardcoded_floors.1 Fixtures.envW Fixtures.stG 1 10000 [1, 2] [2, 1]
      10200
      (okState (executeSwaps Fixtures.envW Fixtures.stG 1 10000 [1, 2] [2, 1]) Fixtures.stG)
      (by
        intro c s amts s2 hsw
        have h2 := Option.some.inj hsw
        have h3 : s = s2 := congrArg Prod.snd h2
        rw [← h3])
      rfl

end FloorClaims

section BotClaims

open Bot

/-- C6 (code evaluated at the failing input): the `ArbitrageBot` class
never defines a method named `executeViaFlashbots`, so when a
Flashbots provider is available, `executeFlashLoanArbitrage` throws a
`TypeError` before any bundle is built, signed, simulated or
submitted; the code the claim (and the spec) describes lives in the
FIRST of two same-named `executeViaMempool` definitions, which
JavaScript class semantics shadows with the second — and that first
body, were it reachable, would behave exactly as claimed: a simulated
failure records a circuit-breaker failure and submits nothing, only a
passing simulation leads to `sendBundle`, and non-inclusion
(`wait() = 1`) is a soft failure that records nothing and throws
nothing. -/
theorem flashbots_path_unreachable :
    resolveMethod "executeViaFlashbots" = none
    ∧ "executeViaFlashbots" ∉ classMethodNames
    ∧ (∀ o : BotOracle, executeFlashLoanArbitrage true o
        = { actions := []
            result := BotResult.threw "TypeError: this.executeViaFlashbots is not a function"
            recordedFailure := false, recordedSuccess := false })
    ∧ (∀ o : BotOracle, o.opportunityAgeMs ≤ 3000 → o.slippageProfitable = true →
        (o.simulationFails = true →
          (flashbotsBundleBody o).recordedFailure = true
          ∧ ∀ tb, BotAction.sendBundle tb ∉ (flashbotsBundleBody o).actions)
        ∧ (o.simulationFails = false →
          BotAction.sendBundle (o.currentBlock + 1) ∈ (flashbotsBundleBody o).actions)
        ∧ (o.simulationFails = false → o.waitResponse = 1 →
          (flashbotsBundleBody o).recordedFailure = false
          ∧ (flashbotsBundleBody o).result = BotResult.returned)) := by
  refine ⟨rfl, by decide, fun o => rfl, ?_⟩
  intro o hage hslip
  have hgate : ¬ (o.hasReserves = true ∧ ¬ o.slippageProfitable = true) := by
    intro hg
    exact hg.2 hslip
  refine ⟨?_, ?_, ?_⟩
  · intro hsim
    unfold flashbotsBundleBody
    rw [if_neg (not_lt.mpr hage), if_neg hgate, if_pos hsim]
    refine ⟨rfl, ?_⟩
    intro tb
    simp
  · intro hsim
    unfold flashbotsBundleBody
    rw [if_neg (not_lt.mpr hage), if_neg hgate, if_neg (by rw [hsim]; exact Bool.false_ne_true)]
    by_cases hw : o.waitResponse = 0
    · rw [if_pos hw]
      simp
    · rw [if_neg hw]
      by_cases hw1 : o.waitResponse = 1
      · rw [if_pos hw1]
        simp
      · rw [if_neg hw1]
        simp
  · intro hsim hw1
    unfold flashbotsBundleBody
    rw [if_neg (not_lt.mpr hage), if_neg hgate, if_neg (by rw [hsim]; exact Bool.false_ne_true)]
    rw [if_neg (by rw [hw1]; exact one_ne_zero), if_pos hw1]
    exact ⟨rfl, rfl⟩

/-- Witness for C6 at a concrete oracle (fresh opportunity, passing
slippage, failing simulation): the dispatch throws the `TypeError`,
while the shadowed bundle body would have recorded the failure without
submitting. -/
theorem flashbots_path_unreachable_witness :
    executeFlashLoanArbitrage true
        { opportunityAgeMs := 1000, hasReserves := true, slippageProfitable := true
          currentBlock := 50, simulationFails := true, waitResponse := 0
          gasTooHigh := false, staticCallOk := true, receiptOk := true }
      = { actions := []
          result := BotResult.threw "TypeError: this.executeViaFlashbots is not a function"
          recordedFailure := false, recordedSuccess := false }
    ∧ (flashbotsBundleBody
        { opportunityAgeMs := 1000, hasReserves := true, slippageProfitable := true
          currentBlock := 50, simulationFails := true, waitResponse := 0
          gasTooHigh := false, staticCallOk := true, receiptOk := true }).recordedFailure = true := by
  constructor
  · exact flashbots_path_unreachable.2.2.1
      { opportunityAgeMs := 1000, hasReserves := true, slippageProfitable := true
        currentBlock := 50, simulationFails := true, waitResponse := 0
        gasTooHigh := false, staticCallOk := true, receiptOk := true }
  · exact ((flashbots_path_unreachable.2.2.2
      { opportunityAgeMs := 1000, hasReserves := true, slippageProfitable := true
        currentBlock := 50, simulationFails := true, waitResponse := 0
        gasTooHigh := false, staticCallOk := true, receiptOk := true }
      (by decide) rfl).1 rfl).1

end BotClaims
